import Mathlib

/-!
Verification development for the pharmacy sales-bot ReAct agent
(`app/services/agent_service.py` together with the tool contracts it
registers from `app/services/tool_service.py`).

The agent's runtime data (JSON payloads exchanged with the language-model
gateway and the tool adapters) is embedded as the inductive type `Value`.
External collaborators (the language-model gateway and the tool adapter
functions, which perform network calls) are modelled as oracles: a stream of
structured gateway responses, a stream of tool invocation outcomes, and a
final-text rendering function.  Python exceptions are modelled with
`Except`; code that catches exceptions is translated to total functions on
the corresponding sum types.  Gateway JSON fields are modelled with the
types declared by the prompt schema (string reasoning, string action label,
optional string tool name, string-keyed argument object).
-/

namespace PharmBots

/-- JSON-like runtime values manipulated by the agent (Python dict/list/str/int/bool/None). -/
inductive Value where
  | vnull
  | vbool (b : Bool)
  | vint (n : Int)
  | vstr (s : String)
  | vlist (items : List Value)
  | vdict (entries : List (String × Value))

/-- Python `d.get(k)` on a string-keyed dict: first entry with the given key. -/
def dget (d : List (String × Value)) (k : String) : Option Value :=
  (d.find? (fun p => p.1 = k)).map (fun p => p.2)

/-- Python `d[k] = v`: overwrite in place if the key exists, else append. -/
def dset (d : List (String × Value)) (k : String) (v : Value) : List (String × Value) :=
  if d.any (fun p => p.1 = k) then
    d.map (fun p => if p.1 = k then (k, v) else p)
  else d ++ [(k, v)]

/-- Python `d.update(other)`: shallow merge, later keys overwrite. -/
def dupdate (d other : List (String × Value)) : List (String × Value) :=
  other.foldl (fun acc p => dset acc p.1 p.2) d

/-- Python truthiness of a runtime value. -/
def truthy : Value → Bool
  | .vnull => false
  | .vbool b => b
  | .vint n => n != 0
  | .vstr s => !s.isEmpty
  | .vlist xs => !xs.isEmpty
  | .vdict es => !es.isEmpty

/-- Python truthiness of an optional tool name (`None` and `""` are falsy). -/
def truthyName : Option String → Bool
  | none => false
  | some s => !s.isEmpty

/-- Membership test of a string among the elements of a Python list
(`"k" in xs`): Python `==` makes a string equal only to an equal string. -/
def hasStrElem (xs : List Value) (k : String) : Bool :=
  xs.any (fun v => match v with | .vstr s => s = k | _ => false)

/-- Substring test (`k in s` for Python strings). -/
def containsSub (s k : String) : Bool :=
  (s.splitOn k).length != 1

mutual

/-- Python `repr` of a runtime value (used by `str`/f-string rendering of
containers). -/
def pyRepr : Value → String
  | .vnull => "None"
  | .vbool b => if b then "True" else "False"
  | .vint n => toString n
  | .vstr s => "'" ++ s ++ "'"
  | .vlist xs => "[" ++ pyReprSeq xs ++ "]"
  | .vdict es => "\x7b" ++ pyReprEntries es ++ "\x7d"

/-- Comma-separated reprs of list elements. -/
def pyReprSeq : List Value → String
  | [] => ""
  | [v] => pyRepr v
  | v :: rest => pyRepr v ++ ", " ++ pyReprSeq rest

/-- Comma-separated reprs of dict entries. -/
def pyReprEntries : List (String × Value) → String
  | [] => ""
  | [(k, v)] => "'" ++ k ++ "': " ++ pyRepr v
  | (k, v) :: rest => "'" ++ k ++ "': " ++ pyRepr v ++ ", " ++ pyReprEntries rest

end

/-- Python `str` of a runtime value (f-string interpolation): strings are
rendered without quotes, containers via `repr`. -/
def pyToString : Value → String
  | .vstr s => s
  | v => pyRepr v

/-- Dataclass `Thought` (agent_service.py): one Decision of the gateway. -/
structure Thought where
  reasoning : String
  next_action : String
  tool_name : Option String
  tool_args : List (String × Value)

/-- Dataclass `Observation` (agent_service.py): outcome of executing a tool. -/
structure Observation where
  result : Value
  success : Bool
  error : Option String

/-- Mutable fields of `ReActAgent` relevant to the control loop
(`conversation_history`, `current_pharmacy`, `collected_info`,
`topics_of_interest`, `email_sent`).  `current_pharmacy = vnull` models
Python `None`. -/
structure AgentSt where
  conversation_history : List (String × String)
  current_pharmacy : Value
  collected_info : List (String × Value)
  topics_of_interest : List Value
  email_sent : Bool

/-- State of a fresh `ReActAgent.__init__`. -/
def initState : AgentSt :=
  ⟨[], .vnull, [], [], false⟩

/-- The fixed tool registry built in `ReActAgent.__init__`: tool name paired
with its `required_context` argument names, in registration order. -/
def toolRegistry : List (String × List String) :=
  [ ("find_pharmacy", ["phone_number"]),
    ("classify_intent", ["user_message", "conversation_context"]),
    ("generate_email", ["pharmacy_info", "user_query", "topics_of_interest"]),
    ("send_email", ["email_data"]),
    ("calculate_rx_volume", ["pharmacy"]) ]

/-- Tool resolution `next((t for t in self.tools if t.name == thought.tool_name), None)`:
Python `==` between a string and `None` is false. -/
def findTool (n : Option String) : Option (String × List String) :=
  toolRegistry.find? (fun p => n == some p.1)

/-- The required-argument names absent from the argument dict
(`[arg for arg in tool.required_context if arg not in tool_args]`). -/
def requiredMissing (req : List String) (args : List (String × Value)) : List String :=
  req.filter (fun a => !(args.any (fun p => p.1 = a)))

/-- The fields of the gateway JSON object parsed in `_generate_thought`
(`reasoning`, `next_action`, `tool_name`, `tool_args`), each `none` when the
key is absent. -/
structure ThoughtData where
  reasoning : Option String
  next_action : Option String
  tool_name : Option String
  tool_args : Option (List (String × Value))

/-- Outcome of one gateway decision request as seen by `_generate_thought`:
the API call raises, the content fails `json.loads`, or it parses to a JSON
object. -/
inductive ThoughtResp where
  | fail
  | unparseable
  | parsed (d : ThoughtData)

/-- A fallback `Thought` synthesized by `_generate_thought`: next action is
the terminal sentinel, no tool, empty arguments. -/
def fallbackThought (r : String) : Thought :=
  ⟨r, "continue_conversation", none, []⟩

/-- Translation of `ReActAgent._generate_thought`: parse failure, missing
required fields and raised exceptions each degrade to a fallback `Thought`;
when `email_sent` is set and the parsed data names the `send_email` tool,
the decision is overridden in place to `continue_conversation` with tool
name and arguments cleared. -/
def generate_thought (email_sent : Bool) (resp : ThoughtResp) : Thought :=
  match resp with
  | .fail => fallbackThought "Error in thought generation"
  | .unparseable => fallbackThought "Error parsing JSON response"
  | .parsed d =>
    if d.reasoning.isNone || d.next_action.isNone then
      fallbackThought "Invalid thought data structure"
    else if email_sent && (d.tool_name == some "send_email") then
      ⟨d.reasoning.getD "", "continue_conversation", none, []⟩
    else
      ⟨d.reasoning.getD "", d.next_action.getD "continue_conversation",
        d.tool_name, d.tool_args.getD []⟩

/-- Translation of `ReActAgent._execute_tool`.  The tool function itself is
external; `invokeResult` is the oracle outcome of invoking it (`.error e`
models a raised exception with description `e`).  Returns the `Observation`,
the updated `email_sent` flag, and whether the tool function was actually
invoked (and hence whether `invokeResult` was consumed). -/
def execute_tool (t : Thought) (email_sent : Bool)
    (invokeResult : Except String Value) : Observation × Bool × Bool :=
  if !truthyName t.tool_name then
    (⟨.vnull, true, none⟩, email_sent, false)
  else
    match findTool t.tool_name with
    | none =>
      (⟨.vnull, false, some ("Tool " ++ t.tool_name.getD "" ++ " not found")⟩,
        email_sent, false)
    | some tool =>
      if !(requiredMissing tool.2 t.tool_args).isEmpty then
        (⟨.vnull, false,
          some ("Missing required context: " ++
            String.intercalate ", " (requiredMissing tool.2 t.tool_args))⟩,
          email_sent, false)
      else
        match invokeResult with
        | .error e => (⟨.vnull, false, some e⟩, email_sent, true)
        | .ok v =>
          if t.tool_name == some "send_email" then
            match v with
            | .vdict d =>
              if truthy ((dget d "success").getD (.vbool false)) then
                (⟨v, true, none⟩, true, true)
              else
                (⟨v, true, none⟩, email_sent, true)
            | _ =>
              -- `result.get("success", False)` raises on a non-dict result;
              -- the exception is caught inside the same try block
              (⟨.vnull, false, some "object has no attribute get"⟩, email_sent, true)
          else (⟨v, true, none⟩, email_sent, true)

/-- The synthetic assistant transcript entry appended by `_update_state`
when a tool was named. -/
def toolEntry (t : Thought) (o : Observation) : String :=
  "Thought: " ++ t.reasoning ++ "\nAction: " ++ t.next_action ++ "\nResult: " ++
    (if o.success then pyToString o.result else
      (match o.error with | some e => e | none => "None"))

/-- The `classify_intent` arm of `_update_state`: `intent_data.get("intent")`
raises on a non-dict result; intent `provide_info` shallow-merges the `info`
payload into `collected_info` (a non-dict payload makes `dict.update`
raise); intent `request_email` sets the `requested_email` flag. -/
def applyClassify (o : Observation) (s : AgentSt) : Except (String × AgentSt) AgentSt :=
  match o.result with
  | .vdict d =>
    match dget d "intent" with
    | some (.vstr i) =>
      if i = "provide_info" then
        match dget d "info" with
        | none => .ok s
        | some (.vdict info) => .ok { s with collected_info := dupdate s.collected_info info }
        | some _ => .error ("cannot convert update sequence", s)
      else if i = "request_email" then
        .ok { s with collected_info := dset s.collected_info "requested_email" (.vbool true) }
      else .ok s
    | _ => .ok s
  | _ => .error ("object has no attribute get", s)

/-- The `generate_email` arm of `_update_state`: `"topics" in email_data`
followed by `topics_of_interest.extend(email_data["topics"])`, with the
Python semantics of `in` and `extend` on each result shape (`extend` over a
string appends its characters, over a dict appends its keys; subscripting a
list or string with `"topics"` raises). -/
def applyGenerateEmail (o : Observation) (s : AgentSt) : Except (String × AgentSt) AgentSt :=
  match o.result with
  | .vdict d =>
    match dget d "topics" with
    | none => .ok s
    | some (.vlist xs) => .ok { s with topics_of_interest := s.topics_of_interest ++ xs }
    | some (.vstr str) =>
      .ok { s with topics_of_interest :=
        s.topics_of_interest ++ str.toList.map (fun c => Value.vstr (String.singleton c)) }
    | some (.vdict d2) =>
      .ok { s with topics_of_interest :=
        s.topics_of_interest ++ d2.map (fun p => Value.vstr p.1) }
    | some _ => .error ("object is not iterable", s)
  | .vlist xs =>
    if hasStrElem xs "topics" then .error ("list indices must be integers", s) else .ok s
  | .vstr s2 =>
    if containsSub s2 "topics" then .error ("string indices must be integers", s) else .ok s
  | _ => .error ("argument is not a container", s)

/-- First statement of `_update_state`: when a (truthy) tool name is
present, append the synthetic assistant transcript entry (accessing the
observation, which raises if it is `None`). -/
def histStep (t : Thought) (obs : Option Observation) (s : AgentSt) :
    Except (String × AgentSt) AgentSt :=
  if truthyName t.tool_name then
    match obs with
    | none => .error ("NoneType object has no attribute success", s)
    | some o =>
      .ok { s with conversation_history :=
        s.conversation_history ++ [("assistant", toolEntry t o)] }
  else .ok s

/-- The `if tool == "find_pharmacy" ... elif tool == "classify_intent" ...`
chain of `_update_state` (a falsy tool name fails both comparisons). -/
def chainStep (t : Thought) (obs : Option Observation) (s1 : AgentSt) :
    Except (String × AgentSt) AgentSt :=
  if t.tool_name == some "find_pharmacy" then
    match obs with
    | some o => if o.success then .ok { s1 with current_pharmacy := o.result } else .ok s1
    | none => .error ("NoneType object has no attribute success", s1)
  else if t.tool_name == some "classify_intent" then
    match obs with
    | some o => if o.success then applyClassify o s1 else .ok s1
    | none => .error ("NoneType object has no attribute success", s1)
  else .ok s1

/-- The separate `if tool == "generate_email"` statement of `_update_state`. -/
def emailStep (t : Thought) (obs : Option Observation) (s2 : AgentSt) :
    Except (String × AgentSt) AgentSt :=
  if t.tool_name == some "generate_email" then
    match obs with
    | some o => if o.success then applyGenerateEmail o s2 else .ok s2
    | none => .error ("NoneType object has no attribute success", s2)
  else .ok s2

/-- Translation of `ReActAgent._update_state`: the three statements in
source order.  A raised exception is returned as `.error` carrying its
description and the state at the moment of the raise (mutations already
performed persist). -/
def update_state (t : Thought) (obs : Option Observation) (s : AgentSt) :
    Except (String × AgentSt) AgentSt :=
  match histStep t obs s with
  | .error e => .error e
  | .ok s1 =>
    match chainStep t obs s1 with
    | .error e => .error e
    | .ok s2 => emailStep t obs s2

/-- Translation of `ReActAgent._generate_natural_response`: the gateway's
free-text reply, or the fixed apology when the gateway call raises. -/
def generate_natural_response (resp : Except String String) : String :=
  match resp with
  | .ok s => s
  | .error _ =>
    "I apologize, but I'm having trouble generating a response. Could you please rephrase your question?"

/-- Oracle behavior of the external collaborators during one
`process_message` call: the n-th structured decision response, the n-th tool
invocation outcome, and the final-text rendering (a function of the Decision,
Observation and state snapshot passed to `_generate_natural_response`). -/
structure Env where
  thoughtResp : Nat → ThoughtResp
  toolResp : Nat → Except String Value
  finalResp : Thought → Observation → AgentSt → Except String String

/-- Result of the think/act/observe while-loop: normal exit (last thought,
last observation, state, iteration count, next decision index, names of tools
invoked) or a propagated exception. -/
inductive LoopOut where
  | done (t : Thought) (obs : Option Observation) (s : AgentSt)
      (iter : Nat) (tIdx : Nat) (inv : List String)
  | exc (msg : String) (s : AgentSt) (iter : Nat) (inv : List String)

/-- The ACTING phase of one loop iteration (lines 331-344 of
`process_message`): resolve the named tool, validate required arguments, and
only then call `_execute_tool`; with no (truthy) tool name the previous
observation is left in place.  Returns the observation, state (with
`email_sent` possibly set by `send_email`), next tool-oracle index and
invocation trace. -/
def actPhase (env : Env) (toolIdx : Nat) (t : Thought) (obs : Option Observation)
    (s : AgentSt) (inv : List String) :
    Option Observation × AgentSt × Nat × List String :=
  if truthyName t.tool_name then
    match findTool t.tool_name with
    | none =>
      (some ⟨.vnull, false, some ("Tool " ++ t.tool_name.getD "" ++ " not found")⟩,
        s, toolIdx, inv)
    | some tool =>
      if (requiredMissing tool.2 t.tool_args).isEmpty then
        (some (execute_tool t s.email_sent (env.toolResp toolIdx)).1,
          { s with email_sent := (execute_tool t s.email_sent (env.toolResp toolIdx)).2.1 },
          toolIdx + 1, inv ++ [t.tool_name.getD ""])
      else
        (some ⟨.vnull, false,
          some ("Missing required context: " ++
            String.intercalate ", " (requiredMissing tool.2 t.tool_args))⟩,
          s, toolIdx, inv)
  else (obs, s, toolIdx, inv)

/-- The while-loop of `process_message`.  `fuel = max_iterations -
iteration_count` (the loop guard `iteration_count < max_iterations` is
exactly `fuel > 0`); the guard also exits when the thought's next action is
the terminal sentinel.  Each surviving iteration acts, folds the observation
into state, and requests the next decision. -/
def runLoop (env : Env) :
    Nat → Nat → Nat → Nat → Thought → Option Observation → AgentSt → List String → LoopOut
  | 0, iter, tIdx, _, t, obs, s, inv => .done t obs s iter tIdx inv
  | fuel + 1, iter, tIdx, toolIdx, t, obs, s, inv =>
    if t.next_action = "continue_conversation" then .done t obs s iter tIdx inv
    else
      let a := actPhase env toolIdx t obs s inv
      match update_state t a.1 a.2.1 with
      | .error e => .exc e.1 e.2 (iter + 1) a.2.2.2
      | .ok s2 =>
        runLoop env fuel (iter + 1) (tIdx + 1) a.2.2.1
          (generate_thought s2.email_sent (env.thoughtResp tIdx)) a.1 s2 a.2.2.2

/-- The loop portion of `process_message`: append the user turn, request the
first decision, then run the bounded loop (`max_iterations = 5`). -/
def processLoop (env : Env) (message : String) (s0 : AgentSt) : LoopOut :=
  let s := { s0 with conversation_history := s0.conversation_history ++ [("user", message)] }
  runLoop env 5 0 1 0 (generate_thought s.email_sent (env.thoughtResp 0)) none s []

/-- What one `process_message` call produced: the returned reply text, the
final agent state, the number of loop-body executions, and the names of the
tools invoked. -/
structure RunResult where
  reply : String
  state : AgentSt
  iterations : Nat
  invocations : List String

/-- Translation of `ReActAgent.process_message`: run the bounded loop; a
propagated exception is caught by the outer handler and answered with the
fixed apology; otherwise the observation is defaulted if still `None`, the
final reply is rendered from the last thought/observation pair and appended
to the transcript. -/
def process_message (env : Env) (message : String) (s0 : AgentSt) : RunResult :=
  match processLoop env message s0 with
  | .exc _ sE iter inv =>
    ⟨"I apologize, but I encountered an error processing your message. Please try again.",
      sE, iter, inv⟩
  | .done t obs s' iter _ inv =>
    let obsF := obs.getD ⟨.vnull, true, none⟩
    let reply := generate_natural_response (env.finalResp t obsF s')
    ⟨reply,
      { s' with conversation_history := s'.conversation_history ++ [("assistant", reply)] },
      iter, inv⟩

/-- Summation loop of `calculate_total_rx_volume`
(`sum(rx.get("count", 0) for rx in pharmacy["prescriptions"])`); a non-dict
item or a non-integer count raises. -/
def sumCounts : List Value → Int → Except String Int
  | [], acc => .ok acc
  | rx :: rest, acc =>
    match rx with
    | .vdict d =>
      match (dget d "count").getD (.vint 0) with
      | .vint n => sumCounts rest (acc + n)
      | .vbool b => sumCounts rest (acc + (if b then 1 else 0))
      | _ => .error "unsupported operand type for sum"
    | _ => .error "object has no attribute get"

/-- Translation of `ReActAgent.calculate_total_rx_volume`: 0 for a falsy
pharmacy or one without a `prescriptions` key, else the sum of the items'
`count` values (with Python's `in` semantics on each input shape). -/
def calculate_total_rx_volume (pharmacy : Value) : Except String Int :=
  if !truthy pharmacy then .ok 0
  else
    match pharmacy with
    | .vdict d =>
      match dget d "prescriptions" with
      | none => .ok 0
      | some (.vlist rxs) => sumCounts rxs 0
      | some _ => .error "object is not iterable"
    | .vstr s2 =>
      if containsSub s2 "prescriptions" then .error "string indices must be integers"
      else .ok 0
    | .vlist xs =>
      if hasStrElem xs "prescriptions" then .error "list indices must be integers"
      else .ok 0
    | _ => .error "argument is not a container"

/-- Python subscript `pharmacy["name"]` rendered by the greeting f-string. -/
def nameOf : Value → Except String String
  | .vdict d =>
    match dget d "name" with
    | some v => .ok (pyToString v)
    | none => .error "KeyError name"
  | _ => .error "object is not subscriptable"

/-- Translation of `ReActAgent.handle_incoming_call`: build the fixed
`find_pharmacy` thought, execute it against the lookup oracle, fold the
observation into state, and greet.  The function has no exception handler;
`.error` in the first component models an uncaught raise (the state at that
moment is still returned, as Python's in-place mutations persist). -/
def handle_incoming_call (lookupResult : Except String Value)
    (caller_phone : String) (s0 : AgentSt) : Except String String × AgentSt :=
  let t : Thought :=
    ⟨"Need to identify the calling pharmacy", "find_pharmacy",
      some "find_pharmacy", [("phone_number", .vstr caller_phone)]⟩
  let r := execute_tool t s0.email_sent lookupResult
  let o := r.1
  let s := { s0 with email_sent := r.2.1 }
  match update_state t (some o) s with
  | .error e => (.error e.1, e.2)
  | .ok s1 =>
    if o.success && truthy o.result then
      match calculate_total_rx_volume o.result with
      | .error m => (.error m, s1)
      | .ok rx =>
        match nameOf o.result with
        | .error m => (.error m, s1)
        | .ok nm =>
          let greeting :=
            "Hello, thanks for calling! I see you're calling from " ++ nm ++ ". " ++
            "I notice you handle about " ++ toString rx ++
            " prescriptions. How can I assist you today with our pharmacy services?"
          (.ok greeting,
            { s1 with conversation_history :=
                s1.conversation_history ++ [("assistant", greeting)] })
    else
      let greeting :=
        "Hello, thanks for calling our pharmacy services! I'd be happy to tell you about how we can help your pharmacy. Could I get the name of your pharmacy, please?"
      (.ok greeting,
        { s1 with conversation_history :=
            s1.conversation_history ++ [("assistant", greeting)] })

/-- A tool result of the shape the adapters in `tool_service.py` produce: a
JSON object whose optional `info` payload is an object and whose optional
`topics` payload is a list, so that `_update_state` can fold it without
raising. -/
def wellFormedResult : Value → Bool
  | .vdict es =>
    (match dget es "info" with
     | none => true
     | some (.vdict _) => true
     | some _ => false) &&
    (match dget es "topics" with
     | none => true
     | some (.vlist _) => true
     | some _ => false)
  | _ => false

/-- An environment whose successful tool invocation outcomes are all
well-formed adapter results. -/
def WellBehaved (env : Env) : Prop :=
  ∀ n v, env.toolResp n = .ok v → wellFormedResult v = true

end PharmBots

namespace PharmBots

/-- Iteration count recorded in a loop outcome. -/
def iterOf : LoopOut → Nat
  | .done _ _ _ i _ _ => i
  | .exc _ _ i _ => i

/-- Invocation trace recorded in a loop outcome. -/
def invOf : LoopOut → List String
  | .done _ _ _ _ _ inv => inv
  | .exc _ _ _ inv => inv

/-- Email flag of the state recorded in a loop outcome. -/
def emailOf : LoopOut → Bool
  | .done _ _ s _ _ _ => s.email_sent
  | .exc _ s _ _ => s.email_sent

/-- Email flag of the state carried by an `update_state` result (the updated
state on success, the state at the raise on error). -/
def emailOfE : Except (String × AgentSt) AgentSt → Bool
  | .ok s' => s'.email_sent
  | .error e => e.2.email_sent

end PharmBots

namespace PharmBots

/-- A stub gateway whose decisions name no tool and never emit the terminal
sentinel, with trivial tool results and a fixed final text. -/
def envStub : Env :=
  ⟨fun _ => .parsed ⟨some "r", some "keep going", none, none⟩,
   fun _ => .ok (.vdict []),
   fun _ _ _ => .ok "done"⟩

/-- A gateway that immediately emits the terminal sentinel and renders an
empty string as the final text. -/
def envEmptyFinal : Env :=
  ⟨fun _ => .parsed ⟨some "r", some "continue_conversation", none, none⟩,
   fun _ => .ok .vnull,
   fun _ _ _ => .ok ""⟩

/-- A gateway that keeps requesting intent classification (never the
terminal sentinel) while the classifier adapter returns a non-dict value. -/
def envBadClassify : Env :=
  ⟨fun _ => .parsed ⟨some "r", some "classify user intent", some "classify_intent",
      some [("user_message", .vstr "m"), ("conversation_context", .vdict [])]⟩,
   fun _ => .ok (.vint 7),
   fun _ _ _ => .ok "done"⟩

/-- Session state whose email-sent flag is already set. -/
def sentState : AgentSt := { initState with email_sent := true }

end PharmBots

namespace PharmBots

/-- The prescription items of the repository test fixture ([42, 38]). -/
def fixturePrescriptions : List Value :=
  [.vdict [("drug", .vstr "Lisinopril"), ("count", .vint 42)],
   .vdict [("drug", .vstr "Atorvastatin"), ("count", .vint 38)]]

/-- The known-pharmacy record of the repository test fixture. -/
def fixturePharmacyEntries : List (String × Value) :=
  [("phone", .vstr "1-555-123-4567"), ("name", .vstr "HealthFirst Pharmacy"),
   ("city", .vstr "New York"), ("state", .vstr "NY"),
   ("prescriptions", .vlist fixturePrescriptions)]

end PharmBots

namespace PharmBots

theorem nonTruthy_beq (n : Option String) (x : String) (hx : x ≠ "")
    (h : truthyName n = false) : (n == some x) = false := by
  cases n with
  | none => rfl
  | some a =>
    simp [truthyName, String.isEmpty_iff] at h
    subst h
    rw [beq_eq_false_iff_ne]
    exact fun h' => hx (Option.some.inj h').symm

theorem nonTruthy_ne (n : Option String) (x : String) (hx : x ≠ "")
    (h : truthyName n = false) : n ≠ some x := by
  cases n with
  | none => exact fun h' => Option.noConfusion h'
  | some a =>
    simp [truthyName, String.isEmpty_iff] at h
    subst h
    exact fun h' => hx (Option.some.inj h').symm

theorem histStep_nonTruthy (t : Thought) (obs : Option Observation) (s : AgentSt)
    (h : truthyName t.tool_name = false) : histStep t obs s = .ok s := by
  simp [histStep, h]

theorem chainStep_nonTruthy (t : Thought) (obs : Option Observation) (s : AgentSt)
    (h : truthyName t.tool_name = false) : chainStep t obs s = .ok s := by
  simp [chainStep, nonTruthy_ne t.tool_name "find_pharmacy" (by decide) h,
    nonTruthy_ne t.tool_name "classify_intent" (by decide) h]

theorem emailStep_nonTruthy (t : Thought) (obs : Option Observation) (s : AgentSt)
    (h : truthyName t.tool_name = false) : emailStep t obs s = .ok s := by
  simp [emailStep, nonTruthy_ne t.tool_name "generate_email" (by decide) h]

theorem update_state_nonTruthy (t : Thought) (obs : Option Observation) (s : AgentSt)
    (h : truthyName t.tool_name = false) : update_state t obs s = .ok s := by
  simp [update_state, histStep_nonTruthy t obs s h, chainStep_nonTruthy t obs s h,
    emailStep_nonTruthy t obs s h]

end PharmBots

namespace PharmBots

theorem update_state_find (t : Thought) (o : Observation) (s : AgentSt)
    (hn : t.tool_name = some "find_pharmacy") (hs : o.success = true) :
    update_state t (some o) s = .ok { s with
      conversation_history := s.conversation_history ++ [("assistant", toolEntry t o)],
      current_pharmacy := o.result } := by
  unfold update_state histStep chainStep emailStep
  rw [hn]
  simp [truthyName, hs]
  rfl

theorem update_state_classify_provide (t : Thought) (o : Observation) (s : AgentSt)
    (d info : List (String × Value))
    (hn : t.tool_name = some "classify_intent") (hs : o.success = true)
    (hr : o.result = .vdict d)
    (hi : dget d "intent" = some (.vstr "provide_info"))
    (hp : dget d "info" = some (.vdict info)) :
    update_state t (some o) s = .ok { s with
      conversation_history := s.conversation_history ++ [("assistant", toolEntry t o)],
      collected_info := dupdate s.collected_info info } := by
  unfold update_state histStep chainStep emailStep
  rw [hn]
  simp [truthyName, hs, applyClassify, hr, hi, hp]
  rfl

theorem update_state_classify_request (t : Thought) (o : Observation) (s : AgentSt)
    (d : List (String × Value))
    (hn : t.tool_name = some "classify_intent") (hs : o.success = true)
    (hr : o.result = .vdict d)
    (hi : dget d "intent" = some (.vstr "request_email")) :
    update_state t (some o) s = .ok { s with
      conversation_history := s.conversation_history ++ [("assistant", toolEntry t o)],
      collected_info := dset s.collected_info "requested_email" (.vbool true) } := by
  unfold update_state histStep chainStep emailStep
  rw [hn]
  simp [truthyName, hs, applyClassify, hr, hi]
  rfl

theorem update_state_generate (t : Thought) (o : Observation) (s : AgentSt)
    (d : List (String × Value)) (xs : List Value)
    (hn : t.tool_name = some "generate_email") (hs : o.success = true)
    (hr : o.result = .vdict d)
    (ht : dget d "topics" = some (.vlist xs)) :
    update_state t (some o) s = .ok { s with
      conversation_history := s.conversation_history ++ [("assistant", toolEntry t o)],
      topics_of_interest := s.topics_of_interest ++ xs } := by
  unfold update_state histStep chainStep emailStep
  rw [hn]
  simp [truthyName, hs, applyGenerateEmail, hr, ht]
  rfl

theorem update_state_failed_frame (t : Thought) (o : Observation) (s : AgentSt)
    (h : o.success = false) :
    (update_state t (some o) s).map
      (fun s' => (s'.current_pharmacy, s'.collected_info, s'.topics_of_interest))
      = .ok (s.current_pharmacy, s.collected_info, s.topics_of_interest) := by
  unfold update_state histStep chainStep emailStep
  by_cases ht : truthyName t.tool_name = true <;>
    by_cases b1 : (t.tool_name == some "find_pharmacy") = true <;>
    by_cases b2 : (t.tool_name == some "classify_intent") = true <;>
    by_cases b3 : (t.tool_name == some "generate_email") = true <;>
    simp [ht, b1, b2, b3, h] <;> rfl

end PharmBots

namespace PharmBots

theorem execute_tool_unknown (t : Thought) (es : Bool) (r : Except String Value)
    (ht : truthyName t.tool_name = true) (hf : findTool t.tool_name = none) :
    execute_tool t es r =
      (⟨.vnull, false, some ("Tool " ++ t.tool_name.getD "" ++ " not found")⟩, es, false) := by
  simp [execute_tool, ht, hf]

theorem isEmpty_false_of_ne_nil {α : Type} {l : List α} (h : l ≠ []) : l.isEmpty = false := by
  cases l with
  | nil => exact absurd rfl h
  | cons a as => rfl

theorem execute_tool_missing (t : Thought) (es : Bool) (r : Except String Value)
    (tool : String × List String)
    (ht : truthyName t.tool_name = true) (hf : findTool t.tool_name = some tool)
    (hm : requiredMissing tool.2 t.tool_args ≠ []) :
    execute_tool t es r =
      (⟨.vnull, false, some ("Missing required context: " ++
          String.intercalate ", " (requiredMissing tool.2 t.tool_args))⟩, es, false) := by
  simp [execute_tool, ht, hf, isEmpty_false_of_ne_nil hm]

theorem execute_tool_exc (t : Thought) (es : Bool) (e : String)
    (tool : String × List String)
    (ht : truthyName t.tool_name = true) (hf : findTool t.tool_name = some tool)
    (hm : requiredMissing tool.2 t.tool_args = []) :
    execute_tool t es (.error e) = (⟨.vnull, false, some e⟩, es, true) := by
  simp [execute_tool, ht, hf, hm]

theorem execute_tool_validated_invoked (t : Thought) (es : Bool) (r : Except String Value)
    (tool : String × List String)
    (ht : truthyName t.tool_name = true) (hf : findTool t.tool_name = some tool)
    (hm : requiredMissing tool.2 t.tool_args = []) :
    (execute_tool t es r).2.2 = true := by
  unfold execute_tool
  simp only [ht, hf, hm]
  cases r with
  | error e => rfl
  | ok v =>
    by_cases hb : (t.tool_name == some "send_email") = true
    · cases v <;> simp [hb] <;> split <;> rfl
    · simp [hb]

theorem execute_tool_invoked_iff (t : Thought) (es : Bool) (r : Except String Value) :
    (execute_tool t es r).2.2 = true ↔
      (truthyName t.tool_name = true ∧
       ∃ tool, findTool t.tool_name = some tool ∧ requiredMissing tool.2 t.tool_args = []) := by
  constructor
  · intro h
    by_cases ht : truthyName t.tool_name = true
    · cases hf : findTool t.tool_name with
      | none => rw [execute_tool_unknown t es r ht hf] at h; exact absurd h (by simp)
      | some tool =>
        by_cases hm : requiredMissing tool.2 t.tool_args = []
        · exact ⟨ht, tool, rfl, hm⟩
        · rw [execute_tool_missing t es r tool ht hf hm] at h
          exact absurd h (by simp)
    · unfold execute_tool at h
      simp only [Bool.not_eq_true] at ht
      rw [ht] at h
      exact absurd h (by simp)
  · rintro ⟨ht, tool, hf, hm⟩
    exact execute_tool_validated_invoked t es r tool ht hf hm

theorem execute_tool_email_mono (t : Thought) (r : Except String Value) :
    (execute_tool t true r).2.1 = true := by
  unfold execute_tool
  repeat' split
  all_goals rfl

theorem execute_tool_email_keep (t : Thought) (es : Bool) (r : Except String Value)
    (h : (t.tool_name == some "send_email") = false) :
    (execute_tool t es r).2.1 = es := by
  unfold execute_tool
  repeat' split
  all_goals simp_all

theorem generate_thought_no_send (resp : ThoughtResp) :
    (generate_thought true resp).tool_name ≠ some "send_email" := by
  cases resp with
  | fail => simp [generate_thought, fallbackThought]
  | unparseable => simp [generate_thought, fallbackThought]
  | parsed d =>
    unfold generate_thought
    by_cases h1 : (d.reasoning.isNone || d.next_action.isNone) = true
    · simp [h1, fallbackThought]
    · by_cases h2 : (d.tool_name == some "send_email") = true
      · simp [h1, h2]
      · simp only [h1, h2, Bool.true_and, if_false, Bool.false_eq_true]
        simp only [beq_iff_eq] at h2
        simpa using h2

theorem generate_thought_override (d : ThoughtData)
    (h1 : d.reasoning.isSome = true) (h2 : d.next_action.isSome = true)
    (h3 : d.tool_name = some "send_email") :
    generate_thought true (.parsed d) =
      ⟨d.reasoning.getD "", "continue_conversation", none, []⟩ := by
  unfold generate_thought
  simp [Option.isNone_eq_false_iff, Option.isSome_iff_ne_none.mp h1,
    Option.isSome_iff_ne_none.mp h2, h3]

end PharmBots

namespace PharmBots

theorem applyClassify_email (o : Observation) (s : AgentSt) :
    emailOfE (applyClassify o s) = s.email_sent := by
  unfold applyClassify
  repeat' split
  all_goals rfl

theorem applyGenerateEmail_email (o : Observation) (s : AgentSt) :
    emailOfE (applyGenerateEmail o s) = s.email_sent := by
  unfold applyGenerateEmail
  repeat' split
  all_goals rfl

theorem histStep_email (t : Thought) (obs : Option Observation) (s : AgentSt) :
    emailOfE (histStep t obs s) = s.email_sent := by
  unfold histStep
  repeat' split
  all_goals rfl

theorem chainStep_email (t : Thought) (obs : Option Observation) (s : AgentSt) :
    emailOfE (chainStep t obs s) = s.email_sent := by
  unfold chainStep
  repeat' split
  all_goals first
    | rfl
    | apply applyClassify_email

theorem emailStep_email (t : Thought) (obs : Option Observation) (s : AgentSt) :
    emailOfE (emailStep t obs s) = s.email_sent := by
  unfold emailStep
  repeat' split
  all_goals first
    | rfl
    | apply applyGenerateEmail_email

theorem update_state_email (t : Thought) (obs : Option Observation) (s : AgentSt) :
    emailOfE (update_state t obs s) = s.email_sent := by
  have hh := histStep_email t obs s
  unfold update_state
  cases h1 : histStep t obs s with
  | error e =>
    rw [h1] at hh
    exact hh
  | ok s1 =>
    rw [h1] at hh
    simp only [emailOfE] at hh
    have hc := chainStep_email t obs s1
    cases h2 : chainStep t obs s1 with
    | error e =>
      rw [h2] at hc
      simp only [emailOfE] at hc
      simp only [h2, emailOfE]
      rw [hc, hh]
    | ok s2 =>
      rw [h2] at hc
      simp only [emailOfE] at hc
      simp only [h2]
      have he := emailStep_email t obs s2
      rw [he, hc, hh]

theorem update_state_email_ok (t : Thought) (obs : Option Observation) (s s' : AgentSt)
    (h : update_state t obs s = .ok s') : s'.email_sent = s.email_sent := by
  have h1 := update_state_email t obs s
  rw [h] at h1
  exact h1

theorem update_state_email_err (t : Thought) (obs : Option Observation) (s : AgentSt)
    (e : String × AgentSt)
    (h : update_state t obs s = .error e) : e.2.email_sent = s.email_sent := by
  have h1 := update_state_email t obs s
  rw [h] at h1
  exact h1

end PharmBots

namespace PharmBots

theorem update_state_failed_ok (t : Thought) (o : Observation) (s : AgentSt)
    (h : o.success = false) :
    ∃ s', update_state t (some o) s = .ok s' := by
  cases hu : update_state t (some o) s with
  | error e =>
    have hf := update_state_failed_frame t o s h
    rw [hu] at hf
    exact absurd hf (by simp [Except.map])
  | ok s' => exact ⟨s', rfl⟩

theorem applyClassify_ok (o : Observation) (s : AgentSt)
    (hw : wellFormedResult o.result = true) :
    ∃ s', applyClassify o s = .ok s' := by
  unfold applyClassify
  repeat' split
  all_goals first
    | exact ⟨_, rfl⟩
    | simp_all [wellFormedResult]

theorem applyGenerateEmail_ok (o : Observation) (s : AgentSt)
    (hw : wellFormedResult o.result = true) :
    ∃ s', applyGenerateEmail o s = .ok s' := by
  unfold applyGenerateEmail
  repeat' split
  all_goals first
    | exact ⟨_, rfl⟩
    | simp_all [wellFormedResult]

theorem update_state_ok_wf (t : Thought) (o : Observation) (s : AgentSt)
    (h : o.success = true → wellFormedResult o.result = true) :
    ∃ s', update_state t (some o) s = .ok s' := by
  by_cases hs : o.success = true
  · specialize h hs
    unfold update_state
    have hh : ∃ s1, histStep t (some o) s = .ok s1 := by
      unfold histStep
      split
      · exact ⟨_, rfl⟩
      · exact ⟨_, rfl⟩
    obtain ⟨s1, hh⟩ := hh
    simp only [hh]
    have hc : ∃ s2, chainStep t (some o) s1 = .ok s2 := by
      unfold chainStep
      dsimp only
      repeat' split
      all_goals first
        | exact ⟨_, rfl⟩
        | exact applyClassify_ok o s1 h
    obtain ⟨s2, hc⟩ := hc
    simp only [hc]
    unfold emailStep
    dsimp only
    repeat' split
    all_goals first
      | exact ⟨_, rfl⟩
      | exact applyGenerateEmail_ok o s2 h
  · have h0 : o.success = false := by simpa using hs
    exact update_state_failed_ok t o s h0

end PharmBots

namespace PharmBots

theorem execute_tool_result_wf (t : Thought) (es : Bool) (r : Except String Value)
    (ht : truthyName t.tool_name = true)
    (hr : ∀ v, r = .ok v → wellFormedResult v = true) :
    (execute_tool t es r).1.success = true →
      wellFormedResult (execute_tool t es r).1.result = true := by
  unfold execute_tool
  simp only [ht, Bool.not_true, Bool.false_eq_true, if_false]
  cases hf : findTool t.tool_name with
  | none => intro h; simp at h
  | some tool =>
    by_cases hm : (!(requiredMissing tool.2 t.tool_args).isEmpty) = true
    · simp only [hm, if_true]
      intro h
      simp at h
    · simp only [hm, Bool.false_eq_true, if_false]
      cases r with
      | error e => intro h; simp at h
      | ok v =>
        have hv := hr v rfl
        by_cases hb : (t.tool_name == some "send_email") = true
        · simp only [hb, if_true]
          cases v with
          | vdict d =>
            dsimp only
            split <;> intro _ <;> exact hv
          | vnull => dsimp only; intro h; simp at h
          | vbool b => dsimp only; intro h; simp at h
          | vint n => dsimp only; intro h; simp at h
          | vstr a => dsimp only; intro h; simp at h
          | vlist xs => dsimp only; intro h; simp at h
        · simp only [hb, if_false]
          intro _
          exact hv

theorem actPhase_update_ok (env : Env) (toolIdx : Nat) (t : Thought)
    (obs : Option Observation) (s : AgentSt) (inv : List String)
    (hW : WellBehaved env) :
    ∃ s2, update_state t (actPhase env toolIdx t obs s inv).1
      (actPhase env toolIdx t obs s inv).2.1 = .ok s2 := by
  by_cases ht : truthyName t.tool_name = true
  · unfold actPhase
    simp only [ht, if_true]
    cases hf : findTool t.tool_name with
    | none => exact update_state_failed_ok t _ s rfl
    | some tool =>
      by_cases hm : (requiredMissing tool.2 t.tool_args).isEmpty = true
      · simp only [hm, if_true]
        apply update_state_ok_wf
        exact execute_tool_result_wf t s.email_sent (env.toolResp toolIdx) ht
          (fun v hv => hW toolIdx v hv)
      · simp only [hm, if_false]
        exact update_state_failed_ok t _ s rfl
  · have ht' : truthyName t.tool_name = false := by simpa using ht
    unfold actPhase
    simp only [ht', Bool.false_eq_true, if_false]
    exact ⟨s, update_state_nonTruthy t obs s ht'⟩

theorem actPhase_email (env : Env) (toolIdx : Nat) (t : Thought)
    (obs : Option Observation) (s : AgentSt) (inv : List String)
    (h : s.email_sent = true) :
    (actPhase env toolIdx t obs s inv).2.1.email_sent = true := by
  unfold actPhase
  repeat' split
  all_goals try exact h
  all_goals (show (execute_tool t s.email_sent (env.toolResp toolIdx)).2.1 = true
             rw [h]
             exact execute_tool_email_mono t _)

theorem actPhase_inv (env : Env) (toolIdx : Nat) (t : Thought)
    (obs : Option Observation) (s : AgentSt) (inv : List String)
    (hname : t.tool_name ≠ some "send_email") (hinv : "send_email" ∉ inv) :
    "send_email" ∉ (actPhase env toolIdx t obs s inv).2.2.2 := by
  unfold actPhase
  repeat' split
  all_goals try exact hinv
  intro hmem
  rcases List.mem_append.mp hmem with hm | hm
  · exact hinv hm
  · have heq : "send_email" = t.tool_name.getD "" := by simpa using hm
    cases hTN : t.tool_name with
    | none => rw [hTN] at heq; exact absurd heq (by decide)
    | some a =>
      rw [hTN] at heq
      simp only [Option.getD_some] at heq
      exact hname (by rw [hTN, ← heq])

theorem runLoop_iter_le (env : Env) : ∀ fuel iter tIdx toolIdx t obs s inv,
    iterOf (runLoop env fuel iter tIdx toolIdx t obs s inv) ≤ iter + fuel := by
  intro fuel
  induction fuel with
  | zero =>
    intro iter tIdx toolIdx t obs s inv
    simp [runLoop, iterOf]
  | succ n ih =>
    intro iter tIdx toolIdx t obs s inv
    simp only [runLoop]
    split
    · simp [iterOf]
    · split
      · simp only [iterOf]; omega
      · exact le_trans (ih (iter + 1) (tIdx + 1) _ _ _ _ _) (by omega)

theorem runLoop_email_inv (env : Env) : ∀ fuel iter tIdx toolIdx t obs s inv,
    s.email_sent = true → t.tool_name ≠ some "send_email" → "send_email" ∉ inv →
    emailOf (runLoop env fuel iter tIdx toolIdx t obs s inv) = true ∧
    "send_email" ∉ invOf (runLoop env fuel iter tIdx toolIdx t obs s inv) := by
  intro fuel
  induction fuel with
  | zero =>
    intro iter tIdx toolIdx t obs s inv hs hname hinv
    exact ⟨hs, hinv⟩
  | succ n ih =>
    intro iter tIdx toolIdx t obs s inv hs hname hinv
    simp only [runLoop]
    split
    · exact ⟨hs, hinv⟩
    · have hAe := actPhase_email env toolIdx t obs s inv hs
      have hAi := actPhase_inv env toolIdx t obs s inv hname hinv
      split
      · rename_i e heq
        refine ⟨?_, hAi⟩
        have h1 := update_state_email_err t _ _ e heq
        show e.2.email_sent = true
        rw [h1]
        exact hAe
      · rename_i s2 heq
        have hs2 : s2.email_sent = true := by
          have h1 := update_state_email_ok t _ _ s2 heq
          rw [h1]
          exact hAe
        have hnext : (generate_thought s2.email_sent (env.thoughtResp tIdx)).tool_name
            ≠ some "send_email" := by
          rw [hs2]
          exact generate_thought_no_send _
        exact ih (iter + 1) (tIdx + 1) _ _ _ _ _ hs2 hnext hAi

theorem runLoop_exact (env : Env)
    (hT : ∀ n b, (generate_thought b (env.thoughtResp n)).next_action ≠ "continue_conversation")
    (hW : WellBehaved env) :
    ∀ fuel iter tIdx toolIdx t obs s inv, t.next_action ≠ "continue_conversation" →
    ∃ t' o' s' inv', runLoop env fuel iter tIdx toolIdx t obs s inv =
      .done t' o' s' (iter + fuel) (tIdx + fuel) inv' := by
  intro fuel
  induction fuel with
  | zero =>
    intro iter tIdx toolIdx t obs s inv hne
    exact ⟨t, obs, s, inv, by simp [runLoop]⟩
  | succ n ih =>
    intro iter tIdx toolIdx t obs s inv hne
    simp only [runLoop]
    rw [if_neg hne]
    obtain ⟨s2, hs2⟩ := actPhase_update_ok env toolIdx t obs s inv hW
    simp only [hs2]
    obtain ⟨t', o', s', inv', hrec⟩ :=
      ih (iter + 1) (tIdx + 1) (actPhase env toolIdx t obs s inv).2.2.1
        (generate_thought s2.email_sent (env.thoughtResp tIdx))
        (actPhase env toolIdx t obs s inv).1 s2
        (actPhase env toolIdx t obs s inv).2.2.2 (hT tIdx s2.email_sent)
    have e1 : iter + 1 + n = iter + (n + 1) := by omega
    have e2 : tIdx + 1 + n = tIdx + (n + 1) := by omega
    rw [e1, e2] at hrec
    exact ⟨t', o', s', inv', hrec⟩

end PharmBots

namespace PharmBots

theorem processLoop_def (env : Env) (message : String) (s0 : AgentSt) :
    processLoop env message s0 =
      runLoop env 5 0 1 0
        (generate_thought s0.email_sent (env.thoughtResp 0)) none
        { s0 with conversation_history := s0.conversation_history ++ [("user", message)] }
        [] := rfl

theorem process_message_done (env : Env) (message : String) (s0 : AgentSt)
    (t : Thought) (obs : Option Observation) (s' : AgentSt)
    (iter tIdx : Nat) (inv : List String)
    (hp : processLoop env message s0 = .done t obs s' iter tIdx inv) :
    process_message env message s0 =
      ⟨generate_natural_response (env.finalResp t (obs.getD ⟨.vnull, true, none⟩) s'),
       { s' with conversation_history := s'.conversation_history ++
           [("assistant",
             generate_natural_response (env.finalResp t (obs.getD ⟨.vnull, true, none⟩) s'))] },
       iter, inv⟩ := by
  unfold process_message
  rw [hp]

theorem process_message_exc (env : Env) (message : String) (s0 : AgentSt)
    (m : String) (sE : AgentSt) (iter : Nat) (inv : List String)
    (hp : processLoop env message s0 = .exc m sE iter inv) :
    process_message env message s0 =
      ⟨"I apologize, but I encountered an error processing your message. Please try again.",
        sE, iter, inv⟩ := by
  unfold process_message
  rw [hp]

/-- Claim C1, amended: for every input message and every behavior of the
gateway and tool adapters, `process_message` is total (never raises): its
reply is the gateway's rendered final text or one of the two fixed fallback
sentences, and whenever the gateway's successful final-text outputs are
non-empty the returned reply is non-empty — every internal failure degrades
to a non-empty fallback reply. -/
theorem claim_c1 (env : Env) (message : String) (s0 : AgentSt) :
    ((process_message env message s0).reply =
        "I apologize, but I encountered an error processing your message. Please try again." ∨
     (process_message env message s0).reply =
        "I apologize, but I'm having trouble generating a response. Could you please rephrase your question?" ∨
     ∃ t o s', env.finalResp t o s' = .ok ((process_message env message s0).reply)) ∧
    ((∀ t o s' txt, env.finalResp t o s' = .ok txt → txt ≠ "") →
      (process_message env message s0).reply ≠ "") := by
  cases hp : processLoop env message s0 with
  | exc m sE iter inv =>
    rw [process_message_exc env message s0 m sE iter inv hp]
    refine ⟨Or.inl rfl, ?_⟩
    intro _ h
    have h2 : ("I apologize, but I encountered an error processing your message. Please try again." : String) = "" := h
    exact absurd h2 (by decide)
  | done t obs s' iter tIdx inv =>
    rw [process_message_done env message s0 t obs s' iter tIdx inv hp]
    cases hf : env.finalResp t (obs.getD ⟨.vnull, true, none⟩) s' with
    | ok txt =>
      refine ⟨Or.inr (Or.inr ⟨t, obs.getD ⟨.vnull, true, none⟩, s', ?_⟩), ?_⟩
      · rw [hf]
        rfl
      · intro hne h
        exact hne t (obs.getD ⟨.vnull, true, none⟩) s' txt hf h
    | error e =>
      refine ⟨Or.inr (Or.inl rfl), ?_⟩
      intro _ h
      have h2 : ("I apologize, but I'm having trouble generating a response. Could you please rephrase your question?" : String) = "" := h
      exact absurd h2 (by decide)

end PharmBots

namespace PharmBots

/-- Claim C1, counterexample to the claim as stated: a gateway whose
final-text generation succeeds with the empty string makes
`process_message` return empty text. -/
theorem claim_c1_counterexample :
    (process_message envEmptyFinal "hi" initState).reply = "" := by decide

/-- Claim C1, witness: with a gateway whose successful final texts are
non-empty, the returned reply is non-empty. -/
theorem claim_c1_witness :
    (∀ (t : Thought) (o : Observation) (s' : AgentSt) (txt : String),
       envStub.finalResp t o s' = .ok txt → txt ≠ "") ∧
    (process_message envStub "hi" initState).reply ≠ "" := by
  have hf : ∀ (t : Thought) (o : Observation) (s' : AgentSt) (txt : String),
      envStub.finalResp t o s' = .ok txt → txt ≠ "" := by
    intro t o s' txt h
    have h2 : Except.ok ("done" : String) = Except.ok txt := h
    injection h2 with h3
    rw [← h3]
    decide
  exact ⟨hf, (claim_c1 envStub "hi" initState).2 hf⟩

end PharmBots

namespace PharmBots

/-- Claim C2, amended: the think/act/observe loop executes its body at most
5 times per inbound message; when the gateway never emits the terminal
sentinel "continue_conversation" and every successful tool result is a
well-formed adapter object (so that folding it into state cannot raise), the
loop exits after exactly 5 iterations, reaching the cap is not an error, and
the final reply is rendered from the last Decision/Observation pair; an
exception raised while folding a tool result instead aborts the loop early
to the generic fallback reply. -/
theorem claim_c2 (env : Env) (message : String) (s0 : AgentSt) :
    (process_message env message s0).iterations ≤ 5 ∧
    ((∀ n b, (generate_thought b (env.thoughtResp n)).next_action ≠ "continue_conversation") →
     WellBehaved env →
     (process_message env message s0).iterations = 5 ∧
     ∃ t obs s' tIdx inv,
       processLoop env message s0 = .done t obs s' 5 tIdx inv ∧
       (process_message env message s0).reply =
         generate_natural_response (env.finalResp t (obs.getD ⟨.vnull, true, none⟩) s')) := by
  constructor
  · have hle := runLoop_iter_le env 5 0 1 0
      (generate_thought s0.email_sent (env.thoughtResp 0)) none
      { s0 with conversation_history := s0.conversation_history ++ [("user", message)] } []
    rw [← processLoop_def env message s0] at hle
    cases hp : processLoop env message s0 with
    | done t obs s' iter tIdx inv =>
      rw [process_message_done env message s0 t obs s' iter tIdx inv hp]
      rw [hp] at hle
      simpa [iterOf] using hle
    | exc m sE iter inv =>
      rw [process_message_exc env message s0 m sE iter inv hp]
      rw [hp] at hle
      simpa [iterOf] using hle
  · intro hT hW
    obtain ⟨t', o', s', inv', hrec⟩ := runLoop_exact env hT hW 5 0 1 0
      (generate_thought s0.email_sent (env.thoughtResp 0)) none
      { s0 with conversation_history := s0.conversation_history ++ [("user", message)] } []
      (hT 0 s0.email_sent)
    have hp : processLoop env message s0 = .done t' o' s' 5 6 inv' := by
      rw [processLoop_def env message s0]
      simpa using hrec
    constructor
    · rw [process_message_done env message s0 t' o' s' 5 6 inv' hp]
    · exact ⟨t', o', s', 6, inv', hp,
        by rw [process_message_done env message s0 t' o' s' 5 6 inv' hp]⟩

/-- Claim C2, counterexample to the claim as stated: this gateway never
emits the terminal sentinel, yet the loop exits after 1 iteration (not 5)
because folding the classifier's non-dict result raises, and the reply is
the generic fallback rather than a rendering of the last pair. -/
theorem claim_c2_counterexample :
    (generate_thought false (envBadClassify.thoughtResp 0)).next_action = "classify user intent" ∧
    (generate_thought true (envBadClassify.thoughtResp 0)).next_action = "classify user intent" ∧
    (process_message envBadClassify "hi" initState).iterations = 1 ∧
    (process_message envBadClassify "hi" initState).reply =
      "I apologize, but I encountered an error processing your message. Please try again." := by
  exact ⟨rfl, rfl, by decide, by decide⟩

/-- Claim C2, witness: a concrete never-terminating gateway stub satisfying
the amended theorem's hypotheses, for which the loop runs exactly 5 times. -/
theorem claim_c2_witness :
    (∀ n b, (generate_thought b (envStub.thoughtResp n)).next_action ≠ "continue_conversation") ∧
    WellBehaved envStub ∧
    (process_message envStub "hi" initState).iterations = 5 := by
  have hT : ∀ n b, (generate_thought b (envStub.thoughtResp n)).next_action
      ≠ "continue_conversation" := by
    intro n b
    have h1 : envStub.thoughtResp n = .parsed ⟨some "r", some "keep going", none, none⟩ := rfl
    rw [h1]
    cases b <;> decide
  have hW : WellBehaved envStub := by
    intro n v hv
    have h2 : Except.ok (Value.vdict []) = Except.ok v := hv
    injection h2 with h3
    rw [← h3]
    decide
  exact ⟨hT, hW, ((claim_c2 envStub "hi" initState).2 hT hW).1⟩

end PharmBots

namespace PharmBots

theorem handle_email_mono (lr : Except String Value) (phone : String) (s0 : AgentSt)
    (h : s0.email_sent = true) :
    (handle_incoming_call lr phone s0).2.email_sent = true := by
  unfold handle_incoming_call
  dsimp only
  have hr : (execute_tool
      ⟨"Need to identify the calling pharmacy", "find_pharmacy", some "find_pharmacy",
        [("phone_number", .vstr phone)]⟩ s0.email_sent lr).2.1 = true := by
    rw [h]
    exact execute_tool_email_mono _ _
  split
  · rename_i e heq
    have h1 := update_state_email_err _ _ _ e heq
    show e.2.email_sent = true
    rw [h1]
    exact hr
  · rename_i s1 heq
    have hs1 : s1.email_sent = true := by
      have h1 := update_state_email_ok _ _ _ s1 heq
      rw [h1]
      exact hr
    repeat' split
    all_goals exact hs1

/-- Claim C3: the email-sent terminal flag is monotone — tool execution and
state update never reset it, `process_message` and `handle_incoming_call`
preserve it; once it is true, every Thought produced by `_generate_thought`
is prevented from naming the `send_email` tool (a parsed decision naming it
is overridden in place to `continue_conversation` with tool name and
arguments cleared), so the delivery tool is never invoked again during
`process_message`. -/
theorem claim_c3 :
    (∀ (t : Thought) (r : Except String Value), (execute_tool t true r).2.1 = true) ∧
    (∀ (t : Thought) (obs : Option Observation) (s : AgentSt),
       emailOfE (update_state t obs s) = s.email_sent) ∧
    (∀ resp : ThoughtResp, (generate_thought true resp).tool_name ≠ some "send_email") ∧
    (∀ d : ThoughtData, d.reasoning.isSome = true → d.next_action.isSome = true →
       d.tool_name = some "send_email" →
       generate_thought true (.parsed d) =
         ⟨d.reasoning.getD "", "continue_conversation", none, []⟩) ∧
    (∀ (env : Env) (message : String) (s0 : AgentSt), s0.email_sent = true →
       (process_message env message s0).state.email_sent = true ∧
       "send_email" ∉ (process_message env message s0).invocations) ∧
    (∀ (lr : Except String Value) (phone : String) (s0 : AgentSt), s0.email_sent = true →
       (handle_incoming_call lr phone s0).2.email_sent = true) := by
  refine ⟨execute_tool_email_mono, update_state_email, generate_thought_no_send,
    generate_thought_override, ?_, handle_email_mono⟩
  intro env message s0 h
  have hname : (generate_thought s0.email_sent (env.thoughtResp 0)).tool_name
      ≠ some "send_email" := by
    rw [h]
    exact generate_thought_no_send _
  have hmain := runLoop_email_inv env 5 0 1 0
    (generate_thought s0.email_sent (env.thoughtResp 0)) none
    { s0 with conversation_history := s0.conversation_history ++ [("user", message)] } []
    h hname (by simp)
  rw [← processLoop_def env message s0] at hmain
  cases hp : processLoop env message s0 with
  | done t obs s' iter tIdx inv =>
    rw [process_message_done env message s0 t obs s' iter tIdx inv hp]
    rw [hp] at hmain
    exact hmain
  | exc m sE iter inv =>
    rw [process_message_exc env message s0 m sE iter inv hp]
    rw [hp] at hmain
    exact hmain

/-- Claim C3, witness: with the flag already set, a concrete run preserves
it and never invokes the delivery tool. -/
theorem claim_c3_witness :
    sentState.email_sent = true ∧
    ((process_message envStub "hi" sentState).state.email_sent = true ∧
     "send_email" ∉ (process_message envStub "hi" sentState).invocations) :=
  ⟨rfl, claim_c3.2.2.2.2.1 envStub "hi" sentState rfl⟩

end PharmBots

namespace PharmBots

theorem dget_some_truthy (d : List (String × Value)) (k : String) (v : Value)
    (h : dget d k = some v) : truthy (.vdict d) = true := by
  cases d with
  | nil => exact absurd h (by simp [dget])
  | cons p rest => rfl

theorem update_state_other_ok (t : Thought) (obs : Option Observation) (s s' : AgentSt)
    (b1 : (t.tool_name == some "find_pharmacy") = false)
    (b2 : (t.tool_name == some "classify_intent") = false)
    (b3 : (t.tool_name == some "generate_email") = false)
    (h : update_state t obs s = .ok s') :
    s'.current_pharmacy = s.current_pharmacy ∧ s'.collected_info = s.collected_info ∧
    s'.topics_of_interest = s.topics_of_interest ∧ s'.email_sent = s.email_sent := by
  by_cases ht : truthyName t.tool_name = true
  · unfold update_state histStep chainStep emailStep at h
    simp only [b1, b2, b3, ht, Bool.false_eq_true, if_false, if_true] at h
    cases obs with
    | none => simp at h
    | some o =>
      simp only [Except.ok.injEq] at h
      subst h
      exact ⟨rfl, rfl, rfl, rfl⟩
  · have ht' : truthyName t.tool_name = false := by simpa using ht
    rw [update_state_nonTruthy t obs s ht'] at h
    injection h with h2
    subst h2
    exact ⟨rfl, rfl, rfl, rfl⟩

/-- Claim C4: the per-tool state-update rules fire only on a successful
Observation — `find_pharmacy` replaces the pharmacy record wholesale with
the observation result, `classify_intent` with intent `provide_info`
shallow-merges the `info` payload into collected info and with intent
`request_email` sets the `requested_email` flag to true, `generate_email`
with a topics list extends topics-of-interest (duplicates allowed); on a
failed Observation none of the pharmacy / collected-info / topics fields
change. -/
theorem claim_c4 :
    (∀ (t : Thought) (o : Observation) (s : AgentSt),
       t.tool_name = some "find_pharmacy" → o.success = true →
       update_state t (some o) s = .ok { s with
         conversation_history := s.conversation_history ++ [("assistant", toolEntry t o)],
         current_pharmacy := o.result }) ∧
    (∀ (t : Thought) (o : Observation) (s : AgentSt) (d info : List (String × Value)),
       t.tool_name = some "classify_intent" → o.success = true →
       o.result = .vdict d → dget d "intent" = some (.vstr "provide_info") →
       dget d "info" = some (.vdict info) →
       update_state t (some o) s = .ok { s with
         conversation_history := s.conversation_history ++ [("assistant", toolEntry t o)],
         collected_info := dupdate s.collected_info info }) ∧
    (∀ (t : Thought) (o : Observation) (s : AgentSt) (d : List (String × Value)),
       t.tool_name = some "classify_intent" → o.success = true →
       o.result = .vdict d → dget d "intent" = some (.vstr "request_email") →
       update_state t (some o) s = .ok { s with
         conversation_history := s.conversation_history ++ [("assistant", toolEntry t o)],
         collected_info := dset s.collected_info "requested_email" (.vbool true) }) ∧
    (∀ (t : Thought) (o : Observation) (s : AgentSt) (d : List (String × Value))
       (xs : List Value),
       t.tool_name = some "generate_email" → o.success = true →
       o.result = .vdict d → dget d "topics" = some (.vlist xs) →
       update_state t (some o) s = .ok { s with
         conversation_history := s.conversation_history ++ [("assistant", toolEntry t o)],
         topics_of_interest := s.topics_of_interest ++ xs }) ∧
    (∀ (t : Thought) (o : Observation) (s : AgentSt), o.success = false →
       (update_state t (some o) s).map
         (fun s' => (s'.current_pharmacy, s'.collected_info, s'.topics_of_interest)) =
         .ok (s.current_pharmacy, s.collected_info, s.topics_of_interest)) :=
  ⟨update_state_find, update_state_classify_provide, update_state_classify_request,
    update_state_generate, update_state_failed_frame⟩

/-- Claim C4, witness: a successful provide-info classification merges its
payload into collected info at a concrete input. -/
theorem claim_c4_witness :
    dget [("intent", Value.vstr "provide_info"),
          ("info", Value.vdict [("name", Value.vstr "City Pharmacy")])] "intent"
      = some (.vstr "provide_info") ∧
    update_state ⟨"r", "c", some "classify_intent", []⟩
      (some ⟨.vdict [("intent", .vstr "provide_info"),
                     ("info", .vdict [("name", .vstr "City Pharmacy")])], true, none⟩)
      initState = .ok { initState with
        conversation_history := initState.conversation_history ++
          [("assistant", toolEntry ⟨"r", "c", some "classify_intent", []⟩
            ⟨.vdict [("intent", .vstr "provide_info"),
                     ("info", .vdict [("name", .vstr "City Pharmacy")])], true, none⟩)],
        collected_info := dupdate initState.collected_info
          [("name", .vstr "City Pharmacy")] } :=
  ⟨rfl, claim_c4.2.1 _ _ _ _ _ rfl rfl rfl rfl rfl⟩

/-- Claim C5: tool execution is total — an unknown tool name yields a failed
Observation with a "tool not found" error, distinct from the
missing-argument error; a resolved tool with missing required argument keys
yields a failed Observation naming exactly the missing fields without
invoking the tool function; the tool function is invoked exactly when the
name resolves and validation passes, and a raised exception is converted to
a failed Observation carrying its description. -/
theorem claim_c5 :
    (∀ (t : Thought) (es : Bool) (r : Except String Value),
       truthyName t.tool_name = true → findTool t.tool_name = none →
       execute_tool t es r =
         (⟨.vnull, false, some ("Tool " ++ t.tool_name.getD "" ++ " not found")⟩, es, false)) ∧
    (∀ (t : Thought) (es : Bool) (r : Except String Value) (tool : String × List String),
       truthyName t.tool_name = true → findTool t.tool_name = some tool →
       requiredMissing tool.2 t.tool_args ≠ [] →
       execute_tool t es r = (⟨.vnull, false, some ("Missing required context: " ++
           String.intercalate ", " (requiredMissing tool.2 t.tool_args))⟩, es, false)) ∧
    (∀ (t : Thought) (es : Bool) (e : String) (tool : String × List String),
       truthyName t.tool_name = true → findTool t.tool_name = some tool →
       requiredMissing tool.2 t.tool_args = [] →
       execute_tool t es (.error e) = (⟨.vnull, false, some e⟩, es, true)) ∧
    (∀ (t : Thought) (es : Bool) (r : Except String Value),
       (execute_tool t es r).2.2 = true ↔
         (truthyName t.tool_name = true ∧
          ∃ tool, findTool t.tool_name = some tool ∧
            requiredMissing tool.2 t.tool_args = [])) ∧
    ((execute_tool ⟨"r", "a", some "nope", []⟩ false (.ok .vnull)).1.error
       = some "Tool nope not found") ∧
    ((execute_tool ⟨"r", "a", some "generate_email",
        [("pharmacy_info", .vdict [("name", .vstr "Test")])]⟩ false (.ok .vnull)).1.error
       = some "Missing required context: user_query, topics_of_interest") ∧
    (("Tool nope not found" : String)
       ≠ "Missing required context: user_query, topics_of_interest") :=
  ⟨execute_tool_unknown, execute_tool_missing, execute_tool_exc, execute_tool_invoked_iff,
    rfl, rfl, by decide⟩

/-- Claim C5, witness: invoking email generation with only the pharmacy
info argument yields the failed Observation naming the two missing fields,
without invoking the tool. -/
theorem claim_c5_witness :
    truthyName (some "generate_email") = true ∧
    requiredMissing ["pharmacy_info", "user_query", "topics_of_interest"]
      [("pharmacy_info", Value.vdict [("name", Value.vstr "Test")])] ≠ [] ∧
    execute_tool ⟨"r", "a", some "generate_email",
        [("pharmacy_info", .vdict [("name", .vstr "Test")])]⟩ false (.ok .vnull) =
      (⟨.vnull, false, some ("Missing required context: " ++
        String.intercalate ", " (requiredMissing
          ["pharmacy_info", "user_query", "topics_of_interest"]
          [("pharmacy_info", Value.vdict [("name", Value.vstr "Test")])]))⟩, false, false) :=
  ⟨rfl, by decide,
    claim_c5.2.1 ⟨"r", "a", some "generate_email",
      [("pharmacy_info", .vdict [("name", .vstr "Test")])]⟩ false (.ok .vnull)
      ("generate_email", ["pharmacy_info", "user_query", "topics_of_interest"])
      rfl rfl (by decide)⟩

/-- Claim C6, amended: a Decision that names no tool does not end the loop —
the iteration performs no tool resolution or execution and leaves the state
unchanged, and the loop proceeds to request another Decision; the loop
transitions to DONE exactly when the Decision's next action equals
"continue_conversation" or the iteration cap is exhausted. -/
theorem claim_c6 (env : Env) (fuel iter tIdx toolIdx : Nat) (t : Thought)
    (obs : Option Observation) (s : AgentSt) (inv : List String)
    (h : truthyName t.tool_name = false) :
    (t.next_action ≠ "continue_conversation" →
      runLoop env (fuel + 1) iter tIdx toolIdx t obs s inv =
        runLoop env fuel (iter + 1) (tIdx + 1) toolIdx
          (generate_thought s.email_sent (env.thoughtResp tIdx)) obs s inv) ∧
    (t.next_action = "continue_conversation" →
      runLoop env (fuel + 1) iter tIdx toolIdx t obs s inv = .done t obs s iter tIdx inv) ∧
    runLoop env 0 iter tIdx toolIdx t obs s inv = .done t obs s iter tIdx inv := by
  refine ⟨?_, ?_, rfl⟩
  · intro hne
    have ha : actPhase env toolIdx t obs s inv = (obs, s, toolIdx, inv) := by
      unfold actPhase
      simp [h]
    simp only [runLoop]
    rw [if_neg hne, ha, update_state_nonTruthy t obs s h]
  · intro he
    simp only [runLoop]
    rw [if_pos he]

/-- Claim C6, counterexample to the claim as stated: the first Decision of
this gateway names no tool and its next action is not the terminal sentinel;
an immediate transition to DONE would mean zero loop iterations, but the
loop in fact runs all 5 iterations (invoking no tool). -/
theorem claim_c6_counterexample :
    (generate_thought false (envStub.thoughtResp 0)).tool_name = none ∧
    (generate_thought false (envStub.thoughtResp 0)).next_action = "keep going" ∧
    (process_message envStub "hi" initState).iterations = 5 ∧
    (process_message envStub "hi" initState).invocations = [] :=
  ⟨rfl, rfl, by decide, by decide⟩

/-- Claim C6, witness: one concrete no-tool iteration steps the loop without
exiting and without consuming a tool invocation. -/
theorem claim_c6_witness :
    truthyName (none : Option String) = false ∧
    runLoop envStub (4 + 1) 0 1 0 ⟨"r", "keep going", none, []⟩ none initState [] =
      runLoop envStub 4 1 2 0
        (generate_thought initState.email_sent (envStub.thoughtResp 1)) none initState [] :=
  ⟨rfl, (claim_c6 envStub 4 0 1 0 ⟨"r", "keep going", none, []⟩ none initState [] rfl).1
    (by decide)⟩

/-- Claim C7: when the gateway's raw output fails to parse, omits the
required reasoning / next-action fields, or the gateway call itself raises,
`_generate_thought` returns a synthesized fallback Thought whose next action
is "continue_conversation" with no tool and empty arguments, and never
propagates the failure. -/
theorem claim_c7 (es : Bool) :
    generate_thought es .fail =
      ⟨"Error in thought generation", "continue_conversation", none, []⟩ ∧
    generate_thought es .unparseable =
      ⟨"Error parsing JSON response", "continue_conversation", none, []⟩ ∧
    (∀ d : ThoughtData, d.reasoning = none ∨ d.next_action = none →
      generate_thought es (.parsed d) =
        ⟨"Invalid thought data structure", "continue_conversation", none, []⟩) := by
  refine ⟨rfl, rfl, ?_⟩
  intro d hd
  have hb : (d.reasoning.isNone || d.next_action.isNone) = true := by
    rcases hd with h | h <;> simp [h]
  unfold generate_thought
  simp [hb, fallbackThought]

/-- Claim C7, witness: a parsed object missing the reasoning field yields
the fallback Thought. -/
theorem claim_c7_witness :
    ((⟨none, some "x", none, none⟩ : ThoughtData).reasoning = none ∨
     (⟨none, some "x", none, none⟩ : ThoughtData).next_action = none) ∧
    generate_thought false (.parsed ⟨none, some "x", none, none⟩) =
      ⟨"Invalid thought data structure", "continue_conversation", none, []⟩ :=
  ⟨Or.inl rfl, (claim_c7 false).2.2 ⟨none, some "x", none, none⟩ (Or.inl rfl)⟩

/-- Claim C8: volume aggregation is a pure function of its input — an empty
prescriptions list yields 0, counts 10 and 20 yield 30, repeated calls
agree; executing or folding the `calculate_rx_volume` tool mutates no agent
state field other than the transcript entry. -/
theorem claim_c8 :
    (∀ d : List (String × Value), dget d "prescriptions" = some (.vlist []) →
       calculate_total_rx_volume (.vdict d) = .ok 0) ∧
    (calculate_total_rx_volume (.vdict [("prescriptions",
        .vlist [.vdict [("count", .vint 10)], .vdict [("count", .vint 20)]])]) = .ok 30) ∧
    (∀ p : Value, calculate_total_rx_volume p = calculate_total_rx_volume p) ∧
    (∀ (t : Thought) (obs : Option Observation) (s s' : AgentSt),
       t.tool_name = some "calculate_rx_volume" → update_state t obs s = .ok s' →
       s'.current_pharmacy = s.current_pharmacy ∧ s'.collected_info = s.collected_info ∧
       s'.topics_of_interest = s.topics_of_interest ∧ s'.email_sent = s.email_sent) ∧
    (∀ (t : Thought) (es : Bool) (r : Except String Value),
       t.tool_name = some "calculate_rx_volume" → (execute_tool t es r).2.1 = es) := by
  refine ⟨?_, rfl, fun p => rfl, ?_, ?_⟩
  · intro d hd
    have htr := dget_some_truthy d "prescriptions" _ hd
    unfold calculate_total_rx_volume
    simp [htr, hd, sumCounts]
  · intro t obs s s' hn h
    exact update_state_other_ok t obs s s'
      (by rw [hn]; rfl) (by rw [hn]; rfl) (by rw [hn]; rfl) h
  · intro t es r hn
    exact execute_tool_email_keep t es r (by rw [hn]; rfl)

/-- Claim C8, witness: the empty-prescriptions case evaluated at a concrete
record. -/
theorem claim_c8_witness :
    dget [("prescriptions", Value.vlist [])] "prescriptions" = some (.vlist []) ∧
    calculate_total_rx_volume (.vdict [("prescriptions", .vlist [])]) = .ok 0 :=
  ⟨rfl, claim_c8.1 [("prescriptions", Value.vlist [])] rfl⟩

end PharmBots

namespace PharmBots

/-- Claim C9, amended: in the loop implementation CollectedInfo is not
populated in a fixed acquisition order and a resolved CustomerRecord does
not bypass it — a successful provide-info classification shallow-merges
whatever info payload it carries into collected info, with an outcome
independent of the current pharmacy record. -/
theorem claim_c9 (t : Thought) (o : Observation) (s : AgentSt)
    (d info : List (String × Value)) (p : Value)
    (hn : t.tool_name = some "classify_intent") (hs : o.success = true)
    (hr : o.result = .vdict d)
    (hi : dget d "intent" = some (.vstr "provide_info"))
    (hp : dget d "info" = some (.vdict info)) :
    (update_state t (some o) s).map (fun s' => s'.collected_info)
      = .ok (dupdate s.collected_info info) ∧
    (update_state t (some o) { s with current_pharmacy := p }).map
      (fun s' => s'.collected_info) = .ok (dupdate s.collected_info info) := by
  constructor
  · rw [update_state_classify_provide t o s d info hn hs hr hi hp]
    rfl
  · rw [update_state_classify_provide t o { s with current_pharmacy := p } d info
      hn hs hr hi hp]
    rfl

/-- Claim C9, counterexample to the claim as stated: with a CustomerRecord
already resolved, a successful provide-info classification still adds a
volume field to CollectedInfo — acquisition is neither bypassed once a
record exists nor constrained to the name-location-volume order (the volume
key arrives with no name or location key present). -/
theorem claim_c9_counterexample :
    truthy (AgentSt.current_pharmacy { initState with
        current_pharmacy := .vdict [("name", .vstr "HealthFirst Pharmacy")] }) = true ∧
    (update_state ⟨"r", "c", some "classify_intent", []⟩
      (some ⟨.vdict [("intent", .vstr "provide_info"),
                     ("info", .vdict [("rx_volume", .vint 1000)])], true, none⟩)
      { initState with
        current_pharmacy := .vdict [("name", .vstr "HealthFirst Pharmacy")] }).map
      (fun s' => s'.collected_info) = .ok [("rx_volume", .vint 1000)] :=
  ⟨rfl, rfl⟩

/-- Claim C9, witness: the amended merge rule applied at a concrete
classification payload and pharmacy record. -/
theorem claim_c9_witness :
    dget [("intent", Value.vstr "provide_info"),
          ("info", Value.vdict [("rx_volume", Value.vint 1000)])] "info"
      = some (.vdict [("rx_volume", .vint 1000)]) ∧
    ((update_state ⟨"r", "c", some "classify_intent", []⟩
        (some ⟨.vdict [("intent", .vstr "provide_info"),
                       ("info", .vdict [("rx_volume", .vint 1000)])], true, none⟩)
        initState).map (fun s' => s'.collected_info)
        = .ok (dupdate initState.collected_info [("rx_volume", .vint 1000)]) ∧
     (update_state ⟨"r", "c", some "classify_intent", []⟩
        (some ⟨.vdict [("intent", .vstr "provide_info"),
                       ("info", .vdict [("rx_volume", .vint 1000)])], true, none⟩)
        { initState with current_pharmacy := .vdict [("name", .vstr "A")] }).map
        (fun s' => s'.collected_info)
        = .ok (dupdate initState.collected_info [("rx_volume", .vint 1000)])) :=
  ⟨rfl, claim_c9 ⟨"r", "c", some "classify_intent", []⟩
    ⟨.vdict [("intent", .vstr "provide_info"),
             ("info", .vdict [("rx_volume", .vint 1000)])], true, none⟩
    initState _ _ (.vdict [("name", .vstr "A")]) rfl rfl rfl rfl rfl⟩

/-- Claim C10: a call whose lookup succeeds is greeted by name with the
aggregate prescription quantity, a call whose lookup finds nothing gets the
fixed ask-for-the-name greeting referencing no record fields; in both cases
the greeting is appended to the transcript as an assistant turn. -/
theorem claim_c10 (d : List (String × Value)) (nm : String) (rxs : List Value)
    (total : Int) (phone : String) (s0 : AgentSt)
    (hname : dget d "name" = some (.vstr nm))
    (hrx : dget d "prescriptions" = some (.vlist rxs))
    (hsum : sumCounts rxs 0 = .ok total) :
    ((handle_incoming_call (.ok (.vdict d)) phone s0).1 =
       .ok ("Hello, thanks for calling! I see you're calling from " ++ nm ++ ". " ++
            "I notice you handle about " ++ toString total ++
            " prescriptions. How can I assist you today with our pharmacy services?") ∧
     (handle_incoming_call (.ok (.vdict d)) phone s0).2.conversation_history =
       s0.conversation_history ++
         [("assistant", toolEntry
             ⟨"Need to identify the calling pharmacy", "find_pharmacy",
               some "find_pharmacy", [("phone_number", .vstr phone)]⟩
             ⟨.vdict d, true, none⟩),
          ("assistant",
            "Hello, thanks for calling! I see you're calling from " ++ nm ++ ". " ++
            "I notice you handle about " ++ toString total ++
            " prescriptions. How can I assist you today with our pharmacy services?")]) ∧
    ((handle_incoming_call (.ok .vnull) phone s0).1 =
       .ok "Hello, thanks for calling our pharmacy services! I'd be happy to tell you about how we can help your pharmacy. Could I get the name of your pharmacy, please?" ∧
     (handle_incoming_call (.ok .vnull) phone s0).2.conversation_history =
       s0.conversation_history ++
         [("assistant", toolEntry
             ⟨"Need to identify the calling pharmacy", "find_pharmacy",
               some "find_pharmacy", [("phone_number", .vstr phone)]⟩
             ⟨.vnull, true, none⟩),
          ("assistant",
            "Hello, thanks for calling our pharmacy services! I'd be happy to tell you about how we can help your pharmacy. Could I get the name of your pharmacy, please?")]) := by
  have htr : truthy (.vdict d) = true := dget_some_truthy d "name" _ hname
  have hcalc : calculate_total_rx_volume (.vdict d) = .ok total := by
    unfold calculate_total_rx_volume
    simp [htr, hrx, hsum]
  have hnm : nameOf (.vdict d) = .ok nm := by
    unfold nameOf
    simp [hname]
    rfl
  constructor
  · unfold handle_incoming_call
    dsimp only
    have hex : execute_tool
        ⟨"Need to identify the calling pharmacy", "find_pharmacy",
          some "find_pharmacy", [("phone_number", .vstr phone)]⟩
        s0.email_sent (.ok (.vdict d)) =
        (⟨.vdict d, true, none⟩, s0.email_sent, true) := rfl
    rw [hex]
    rw [update_state_find _ _ _ rfl rfl]
    simp only [htr, Bool.and_self, if_true]
    rw [hcalc, hnm]
    simp [List.append_assoc]
  · unfold handle_incoming_call
    dsimp only
    have hex : execute_tool
        ⟨"Need to identify the calling pharmacy", "find_pharmacy",
          some "find_pharmacy", [("phone_number", .vstr phone)]⟩
        s0.email_sent (.ok .vnull) =
        (⟨.vnull, true, none⟩, s0.email_sent, true) := rfl
    rw [hex]
    rw [update_state_find _ _ _ rfl rfl]
    simp [truthy, List.append_assoc]

/-- Claim C10, witness: the repository's fixture record (counts 42 and 38)
produces the greeting naming the pharmacy and stating 80 prescriptions. -/
theorem claim_c10_witness :
    dget fixturePharmacyEntries "name" = some (.vstr "HealthFirst Pharmacy") ∧
    sumCounts fixturePrescriptions 0 = .ok 80 ∧
    (handle_incoming_call (.ok (.vdict fixturePharmacyEntries)) "1-555-123-4567"
        initState).1 =
      .ok ("Hello, thanks for calling! I see you're calling from " ++
           "HealthFirst Pharmacy" ++ ". " ++ "I notice you handle about " ++
           toString (80 : Int) ++
           " prescriptions. How can I assist you today with our pharmacy services?") :=
  ⟨rfl, rfl, (claim_c10 fixturePharmacyEntries "HealthFirst Pharmacy" fixturePrescriptions
    80 "1-555-123-4567" initState rfl rfl rfl).1.1⟩

end PharmBots
